import Mathlib

/-!
Verification of the sstv-js SSTV codec core against its design specification.

The TypeScript sources are shallowly embedded over exact rational arithmetic:
durations and frequencies (JS `number` values that the code only adds,
multiplies and compares) become `ℚ`, sample indices become `ℤ`/`ℕ`, and the
JS `Math.round` / `Math.floor` calls become the explicit integer operations
below.  Stateful classes become Lean structures with explicit state passing.
-/

namespace SSTV

/-- JS `Math.round`: rounds half toward positive infinity. -/
def jsRound (x : ℚ) : ℤ := ⌊x + 1/2⌋

/-- JS `Math.floor`. -/
def jsFloor (x : ℚ) : ℤ := ⌊x⌋

/-- Color format of a mode (src/types.ts `ColorFormat`). -/
inductive ColorFormat where
  | RGB
  | GBR
  | YCrCb
  | Grayscale
deriving DecidableEq, Repr

/-- Mode record, the shape shared by every class implementing `SSTVMode`
(src/src/modes/*).  `lineTime` is stored evaluated: each mode definition
below writes out the very formula of the corresponding TypeScript getter. -/
structure SSTVMode where
  id : ℕ
  name : String
  colorFormat : ColorFormat
  width : ℕ
  height : ℕ
  syncPulse : ℚ
  syncPorch : ℚ
  channelCount : ℕ
  channelOrder : List ℕ
  scanTimes : List ℚ
  separatorPulses : List ℚ
  lineTime : ℚ
  hasStartSync : Bool
deriving DecidableEq, Repr

/-- Martin M1 (src/src/modes/martin-modes.ts): `lineTime = syncPulse +
syncPorch + (scanTime + separatorPulses[0]) * 3`. -/
def MartinM1 : SSTVMode :=
  { id := 44, name := "Martin M1", colorFormat := .RGB
    width := 320, height := 256
    syncPulse := 0.004862, syncPorch := 0.000572
    channelCount := 3, channelOrder := [1, 2, 0]
    scanTimes := [0.146432, 0.146432, 0.146432]
    separatorPulses := [0.000572, 0.000572, 0.000572]
    lineTime := 0.004862 + 0.000572 + (0.146432 + 0.000572) * 3
    hasStartSync := false }

/-- Martin M2 (src/src/modes/martin-modes.ts). -/
def MartinM2 : SSTVMode :=
  { id := 40, name := "Martin M2", colorFormat := .RGB
    width := 320, height := 256
    syncPulse := 0.004862, syncPorch := 0.000572
    channelCount := 3, channelOrder := [1, 2, 0]
    scanTimes := [0.073216, 0.073216, 0.073216]
    separatorPulses := [0.000572, 0.000572, 0.000572]
    lineTime := 0.004862 + 0.000572 + (0.073216 + 0.000572) * 3
    hasStartSync := false }

/-- Scottie S1 (scottie-modes): `lineTime = sep[0] + scanTime + sep[1] +
scanTime + syncPulse + syncPorch + scanTime`. -/
def ScottieS1 : SSTVMode :=
  { id := 60, name := "Scottie S1", colorFormat := .RGB
    width := 320, height := 256
    syncPulse := 0.009, syncPorch := 0.0015
    channelCount := 3, channelOrder := [1, 2, 0]
    scanTimes := [0.138240, 0.138240, 0.138240]
    separatorPulses := [0.0015, 0.0015, 0]
    lineTime := 0.0015 + 0.138240 + 0.0015 + 0.138240 + 0.009 + 0.0015 + 0.138240
    hasStartSync := true }

/-- Scottie S2 (scottie-modes). -/
def ScottieS2 : SSTVMode :=
  { id := 56, name := "Scottie S2", colorFormat := .RGB
    width := 320, height := 256
    syncPulse := 0.009, syncPorch := 0.0015
    channelCount := 3, channelOrder := [1, 2, 0]
    scanTimes := [0.088064, 0.088064, 0.088064]
    separatorPulses := [0.0015, 0.0015, 0]
    lineTime := 0.0015 + 0.088064 + 0.0015 + 0.088064 + 0.009 + 0.0015 + 0.088064
    hasStartSync := true }

/-- Scottie DX (scottie-modes). -/
def ScottieDX : SSTVMode :=
  { id := 76, name := "Scottie DX", colorFormat := .RGB
    width := 320, height := 256
    syncPulse := 0.009, syncPorch := 0.0015
    channelCount := 3, channelOrder := [1, 2, 0]
    scanTimes := [0.345600, 0.345600, 0.345600]
    separatorPulses := [0.0015, 0.0015, 0]
    lineTime := 0.0015 + 0.345600 + 0.0015 + 0.345600 + 0.009 + 0.0015 + 0.345600
    hasStartSync := true }

/-- Robot 36 (src/src/modes/robot-modes.ts): `lineTime = syncPulse +
syncPorch + scanTimes[0] + 0.0045 + 0.0015 + scanTimes[1]` while
`separatorPulses = [0, 0]` (the 4.5 ms separator and 1.5 ms porch are
"handled specially"). -/
def Robot36 : SSTVMode :=
  { id := 8, name := "Robot 36", colorFormat := .YCrCb
    width := 320, height := 240
    syncPulse := 0.009, syncPorch := 0.003
    channelCount := 2, channelOrder := [0, 1]
    scanTimes := [0.088, 0.044]
    separatorPulses := [0, 0]
    lineTime := 0.009 + 0.003 + 0.088 + 0.0045 + 0.0015 + 0.044
    hasStartSync := false }

/-- Robot 72 (src/src/modes/robot-modes.ts): `lineTime` inserts a 1.5 ms
porch after each of the two 4.5 ms separators. -/
def Robot72 : SSTVMode :=
  { id := 12, name := "Robot 72", colorFormat := .YCrCb
    width := 320, height := 240
    syncPulse := 0.009, syncPorch := 0.003
    channelCount := 3, channelOrder := [0, 1, 2]
    scanTimes := [0.138, 0.069, 0.069]
    separatorPulses := [0.0045, 0.0045, 0]
    lineTime := 0.009 + 0.003 + 0.138 + 0.0045 + 0.0015 + 0.069 + 0.0045 + 0.0015 + 0.069
    hasStartSync := false }

/-- Robot 8 BW (src/src/modes/robot-modes.ts). -/
def Robot8BW : SSTVMode :=
  { id := 2, name := "Robot 8 BW", colorFormat := .Grayscale
    width := 160, height := 120
    syncPulse := 0.010, syncPorch := 0.002
    channelCount := 1, channelOrder := [0]
    scanTimes := [0.060]
    separatorPulses := [0]
    lineTime := 0.010 + 0.002 + 0.060
    hasStartSync := false }

/-- Wraase SC2-180 (wraase-sc2-180). -/
def WraaseSC2180 : SSTVMode :=
  { id := 55, name := "Wraase SC2-180", colorFormat := .RGB
    width := 320, height := 256
    syncPulse := 0.0055225, syncPorch := 0.0005
    channelCount := 3, channelOrder := [0, 1, 2]
    scanTimes := [0.235, 0.235, 0.235]
    separatorPulses := [0, 0, 0]
    lineTime := 0.0055225 + 0.0005 + 0.235 + 0.235 + 0.235
    hasStartSync := false }

/-- Shared constructor for PD modes (pd-modes `PDMode`): sync 20 ms, porch
2.08 ms, four equal scan segments, no separators,
`lineTime = syncPulse + syncPorch + scanTime * 4`. -/
def mkPDMode (id : ℕ) (name : String) (width height : ℕ) (scanTime : ℚ) : SSTVMode :=
  { id := id, name := name, colorFormat := .YCrCb
    width := width, height := height
    syncPulse := 0.020, syncPorch := 0.00208
    channelCount := 4, channelOrder := [0, 1, 2, 0]
    scanTimes := [scanTime, scanTime, scanTime, scanTime]
    separatorPulses := [0, 0, 0, 0]
    lineTime := 0.020 + 0.00208 + scanTime * 4
    hasStartSync := false }

def PD50 : SSTVMode := mkPDMode 93 "PD 50" 320 256 0.09152
def PD90 : SSTVMode := mkPDMode 99 "PD 90" 320 256 0.17024
def PD120 : SSTVMode := mkPDMode 95 "PD 120" 640 496 0.12160
def PD160 : SSTVMode := mkPDMode 98 "PD 160" 512 400 0.195584
def PD180 : SSTVMode := mkPDMode 96 "PD 180" 640 496 0.18304
def PD240 : SSTVMode := mkPDMode 97 "PD 240" 640 496 0.24448
def PD290 : SSTVMode := mkPDMode 94 "PD 290" 800 616 0.22880

/-- MODE_REGISTRY (src/src/modes/index.ts), in source insertion order. -/
def MODE_REGISTRY : List (ℕ × SSTVMode) :=
  [ (44, MartinM1), (40, MartinM2)
  , (60, ScottieS1), (56, ScottieS2), (76, ScottieDX)
  , (8, Robot36), (12, Robot72), (2, Robot8BW)
  , (55, WraaseSC2180)
  , (93, PD50), (99, PD90), (95, PD120), (98, PD160)
  , (96, PD180), (97, PD240), (94, PD290) ]

/-- getModeByVIS (src/src/modes/index.ts). -/
def getModeByVIS (visCode : ℕ) : Option SSTVMode :=
  (MODE_REGISTRY.find? (fun p => p.1 = visCode)).map (·.2)

/-- getAllModes (src/src/modes/index.ts). -/
def getAllModes : List SSTVMode := MODE_REGISTRY.map (·.2)

/-- Sum `syncPulse + syncPorch + Σ (scanTimes[c] + separatorPulses[c])`
appearing in the spec's timing invariant. -/
def timingComponentSum (m : SSTVMode) : ℚ :=
  m.syncPulse + m.syncPorch +
    ((m.scanTimes.zip m.separatorPulses).map (fun p => p.1 + p.2)).sum

/-- pixelToFrequency (constants): `1500 + value * (800 / 255)`. -/
def pixelToFrequency (value : ℚ) : ℚ := 1500 + value * (800 / 255)

/-- frequencyToPixel (constants / FFTPeakFinder.frequencyToPixel):
`clamp(round((freq - 1500) * 255 / 800), 0, 255)`. -/
def frequencyToPixel (freq : ℚ) : ℤ :=
  max 0 (min 255 (jsRound ((freq - 1500) * (255 / 800))))

/-- Sync pulse width classes (src/src/utils/demodulator.ts `SyncPulseWidth`). -/
inductive SyncPulseWidth where
  | FiveMilliSeconds
  | NineMilliSeconds
  | TwentyMilliSeconds
deriving DecidableEq, Repr

/-- Demodulator pulse threshold `syncPulse5msMinSamples =
round(0.005 / 2 * sampleRate)`. -/
def syncPulse5msMinSamples (sampleRate : ℚ) : ℤ := jsRound (0.005 / 2 * sampleRate)

/-- Demodulator pulse threshold `round((0.005 + 0.009) / 2 * sampleRate)`. -/
def syncPulse5msMaxSamples (sampleRate : ℚ) : ℤ := jsRound ((0.005 + 0.009) / 2 * sampleRate)

/-- Demodulator pulse threshold `round((0.009 + 0.020) / 2 * sampleRate)`. -/
def syncPulse9msMaxSamples (sampleRate : ℚ) : ℤ := jsRound ((0.009 + 0.020) / 2 * sampleRate)

/-- Demodulator pulse threshold `round((0.020 + 0.005) * sampleRate)`. -/
def syncPulse20msMaxSamples (sampleRate : ℚ) : ℤ := jsRound ((0.020 + 0.005) * sampleRate)

/-- Demodulator `syncPulseFrequencyTolerance = 50 * 2 / scanLineBandwidth`
with `scanLineBandwidth = 2300 - 1500`. -/
def syncPulseFrequencyTolerance : ℚ := 50 * 2 / (2300 - 1500)

/-- Demodulator.process, pulse-end decision (src/src/utils/demodulator.ts
lines 170-197): when the Schmitt trigger releases after `counter` low
samples and the delayed smoothed frequency deviates from the 1200 Hz
target by `freqDeviation`, either no event is emitted (`none`) or a width
is classified.  The counter/threshold comparisons are verbatim from the
source. -/
def classifySyncPulse (sampleRate : ℚ) (counter : ℤ) (freqDeviation : ℚ) :
    Option SyncPulseWidth :=
  if counter < syncPulse5msMinSamples sampleRate ∨
      counter > syncPulse20msMaxSamples sampleRate ∨
      |freqDeviation| > syncPulseFrequencyTolerance then
    none
  else if counter < syncPulse5msMaxSamples sampleRate then
    some .FiveMilliSeconds
  else if counter < syncPulse9msMaxSamples sampleRate then
    some .NineMilliSeconds
  else
    some .TwentyMilliSeconds

/-- Denominator `y1 - 2*y2 + y3` of quadraticPeakInterp
(src/src/utils/fft-helper.ts), reading neighbours of the peak bin. -/
def interpDenom (magnitudes : List ℚ) (peakIndex : ℤ) : ℚ :=
  magnitudes.getD (peakIndex - 1).toNat 0 - 2 * magnitudes.getD peakIndex.toNat 0 +
    magnitudes.getD (peakIndex + 1).toNat 0

/-- quadraticPeakInterp (src/src/utils/fft-helper.ts): parabolic sub-bin
peak refinement with edge guard, near-zero-denominator guard, and offset
clamped to [-0.5, 0.5]. -/
def quadraticPeakInterp (magnitudes : List ℚ) (peakIndex : ℤ) : ℚ :=
  if peakIndex ≤ 0 ∨ peakIndex ≥ (magnitudes.length : ℤ) - 1 then
    (peakIndex : ℚ)
  else if |interpDenom magnitudes peakIndex| < 1 / 10 ^ 10 then
    (peakIndex : ℚ)
  else
    (peakIndex : ℚ) +
      max (-(1/2))
        (min (1/2)
          (0.5 * (magnitudes.getD (peakIndex - 1).toNat 0 -
              magnitudes.getD (peakIndex + 1).toNat 0) /
            interpDenom magnitudes peakIndex))

/-- VISDecoder.tryParityCorrection (src/src/types.ts lines 732-742): flip
each of the 7 data bits in turn (i = 0 first, LSB) and return the first
flipped code that resolves to a registered mode. -/
def tryParityCorrection (originalCode : ℕ) : Option ℕ :=
  (List.range 7).findSome? fun i =>
    if (getModeByVIS (originalCode ^^^ (1 <<< i))).isSome then
      some (originalCode ^^^ (1 <<< i))
    else none

/-- Bit i of a VIS frame (src/src/types.ts `tryDecode`): a tone below
1250 Hz reads as 1, otherwise 0. `visBitFreqs` holds the 10 estimated bit
frequencies (start bit at index 0). -/
def visBit (visBitFreqs : List ℚ) (i : ℕ) : ℕ :=
  if visBitFreqs.getD i 0 < 1250 then 1 else 0

/-- Code assembled from bits 1-7 of the frame, LSB-first:
`visCode |= bit << (i - 1)` for i = 1..7. -/
def visCodeOf (visBitFreqs : List ℚ) : ℕ :=
  (List.range 7).foldl (fun acc i => acc ||| (visBit visBitFreqs (i + 1) <<< i)) 0

/-- Parity flag of VISDecoder.tryDecode: toggled once per set bit among
bits 1-8 (7 data bits plus the parity bit); `true` means the even-parity
check failed. -/
def visParityOdd (visBitFreqs : List ℚ) : Bool :=
  let dataParity := (List.range 7).foldl
    (fun p i => if visBit visBitFreqs (i + 1) = 1 then !p else p) false
  if visBit visBitFreqs 8 = 1 then !dataParity else dataParity

/-- Decode tail of VISDecoder.tryDecode (src/src/types.ts lines 702-726),
for a frame whose leader check and per-bit frequency validations already
passed: on parity failure attempt the single-bit correction, otherwise
resolve the code through the registry. -/
def visDecodeTail (visBitFreqs : List ℚ) : Option SSTVMode :=
  if visParityOdd visBitFreqs then
    match tryParityCorrection (visCodeOf visBitFreqs) with
    | some corrected => getModeByVIS corrected
    | none => none
  else
    getModeByVIS (visCodeOf visBitFreqs)

/-- Tone segment written by the encoder: frequency in Hz and length in
samples. -/
structure ToneSeg where
  freq : ℚ
  samples : ℤ
deriving DecidableEq, Repr

/-- Encoder durationToSamples (src/unnamed/part_016):
`Math.floor(duration * sampleRate)`. -/
def durationToSamples (sampleRate duration : ℚ) : ℤ := jsFloor (duration * sampleRate)

/-- SSTVEncoder.writeVISCode (src/unnamed/part_016 lines 792-814) as the
sequence of tone segments it feeds to the phase accumulator: 7 data bits
LSB-first (1100 Hz for 1, 1300 Hz for 0, 30 ms each), the even-parity
bit, then a 1200 Hz stop bit. -/
def writeVISCode (sampleRate : ℚ) (visCode : ℕ) : List ToneSeg :=
  let bitSamples := durationToSamples sampleRate 0.03
  let dataSegs := (List.range 7).map fun i =>
    { freq := if (visCode >>> i) &&& 1 = 1 then 1100 else 1300
      samples := bitSamples : ToneSeg }
  let parityCount := (List.range 7).foldl (fun acc i => acc + ((visCode >>> i) &&& 1)) 0
  let parityBit := parityCount % 2
  dataSegs ++
    [{ freq := if parityBit = 1 then 1100 else 1300, samples := bitSamples },
     { freq := 1200, samples := bitSamples }]

/-- JS byte store `Math.max(0, Math.min(255, Math.round(x)))`. -/
def clampByte (x : ℚ) : ℤ := max 0 (min 255 (jsRound x))

/-- yuvToRgbInPlace (src/unnamed/part_004 lines 99-116): full-range
BT.601 conversion of one pixel, clamped and rounded per component. -/
def yuvToRgbInPlace (y u v : ℚ) : ℤ × ℤ × ℤ :=
  (clampByte (y + 1.402 * (v - 128)),
   clampByte (y - 0.344136 * (u - 128) - 0.714136 * (v - 128)),
   clampByte (y + 1.772 * (u - 128)))

/-- ImageChannelBuffer (src/src/types.ts lines 846-902): planar channel
storage; `channels` holds `channelCount` byte planes of
`width * allocatedHeight` entries (absent entries read as the typed
array's 0 default). -/
structure ImageChannelBuffer where
  mode : Option SSTVMode
  allocatedHeight : ℕ
  channels : List (List ℕ)
deriving Repr

/-- ImageChannelBuffer.setPixel (src/src/types.ts lines 889-893):
returns without writing when no mode is allocated or when the line is at
or beyond `allocatedHeight`. -/
def ImageChannelBuffer.setPixel (buf : ImageChannelBuffer)
    (channel line pixel value : ℕ) : ImageChannelBuffer :=
  match buf.mode with
  | none => buf
  | some m =>
    if buf.allocatedHeight ≤ line then buf
    else
      let plane := (buf.channels.getD channel []).set (line * m.width + pixel) value
      { buf with channels := buf.channels.set channel plane }

/-- ImageChannelBuffer.getPixel (src/src/types.ts lines 898-902). -/
def ImageChannelBuffer.getPixel (buf : ImageChannelBuffer)
    (channel line pixel : ℕ) : ℕ :=
  match buf.mode with
  | none => 0
  | some m =>
    if buf.allocatedHeight ≤ line then 0
    else (buf.channels.getD channel []).getD (line * m.width + pixel) 0

/-- ImageChannelBuffer.convertLineToRGB (src/src/types.ts lines 907-959),
expressed per pixel: the RGB triple the loop body writes at
output[3x .. 3x+2] for pixel x of the requested line.  `none` when no
mode is allocated (the method returns without touching the output). -/
def ImageChannelBuffer.convertLinePixel (buf : ImageChannelBuffer)
    (line x : ℕ) : Option (ℤ × ℤ × ℤ) :=
  match buf.mode with
  | none => none
  | some m =>
    let srcIdx := line * m.width + x
    match m.colorFormat with
    | .RGB | .GBR =>
      some (((buf.channels.getD 0 []).getD srcIdx 0 : ℤ),
            ((buf.channels.getD 1 []).getD srcIdx 0 : ℤ),
            ((buf.channels.getD 2 []).getD srcIdx 0 : ℤ))
    | .YCrCb =>
      if m.channelCount = 2 then
        some (yuvToRgbInPlace ((buf.channels.getD 0 []).getD srcIdx 0)
          (if line % 2 = 0 then ((buf.channels.getD 1 []).getD srcIdx 0 : ℚ) else 128)
          (if line % 2 = 0 then 128 else ((buf.channels.getD 1 []).getD srcIdx 0 : ℚ)))
      else
        some (yuvToRgbInPlace ((buf.channels.getD 0 []).getD srcIdx 0)
          ((buf.channels.getD 2 []).getD srcIdx 0)
          ((buf.channels.getD 1 []).getD srcIdx 0))
    | .Grayscale =>
      some (((buf.channels.getD 0 []).getD srcIdx 0 : ℤ),
            ((buf.channels.getD 0 []).getD srcIdx 0 : ℤ),
            ((buf.channels.getD 0 []).getD srcIdx 0 : ℤ))

/-- Pair-based chroma selection of interpolateChroma
(src/src/utils/colorspace.ts lines 85-116) at one pixel of a flattened
chroma plane: V from the even line of the pair containing `line`, U from
the odd line, each defaulting to 128 when the source line is at or beyond
`height`.  Returned as (u, v). -/
def interpolateChromaAt (chroma : List ℕ) (width height line x : ℕ) : ℚ × ℚ :=
  let pairStart := line - line % 2
  ((if pairStart + 1 < height then ((chroma.getD ((pairStart + 1) * width + x) 0 : ℕ) : ℚ)
    else 128),
   (if pairStart < height then ((chroma.getD (pairStart * width + x) 0 : ℕ) : ℚ)
    else 128))

/-- Concrete Robot 36 buffer probing convertLineToRGB: Y(0,0) = 100, the
chroma plane holds 200 at line 0 pixel 0 and 50 at line 1 pixel 0
(flattened index 320); all other bytes are 0. -/
def bufC2 : ImageChannelBuffer :=
  { mode := some Robot36
    allocatedHeight := 368
    channels := [[100], 200 :: (List.replicate 319 0 ++ [50])] }

/-- VIS candidate queued by the streaming decoder
(decoder-core `VISCandidate`). -/
structure VISCandidate where
  index : ℤ
  freqOffset : ℚ
deriving DecidableEq, Repr

/-- SyncHistoryTracker state (src/src/types.ts lines 516-528). -/
structure SyncHistoryTracker where
  syncPulses : List ℤ
  scanLines : List ℤ
  freqOffsets : List ℚ
deriving DecidableEq, Repr

/-- SyncHistoryTracker.adjustIndices (src/src/types.ts lines 553-557):
subtracts the shift offset from every stored sync pulse index; nothing is
filtered out. -/
def SyncHistoryTracker.adjustIndices (t : SyncHistoryTracker) (offset : ℤ) :
    SyncHistoryTracker :=
  { t with syncPulses := t.syncPulses.map (· - offset) }

/-- Index-carrying state of StreamingDecoder touched by shiftBuffer
(src/unnamed/part_001). -/
structure StreamingState where
  bufferWritePos : ℤ
  lastSyncPulseIndex : ℤ
  leaderBreakIndex : ℤ
  sync5ms : SyncHistoryTracker
  sync9ms : SyncHistoryTracker
  sync20ms : SyncHistoryTracker
  visCandidates : List VISCandidate
deriving DecidableEq, Repr

/-- StreamingDecoder.shiftBuffer (src/unnamed/part_001 lines 791-812):
no-op when the amount is non-positive or exceeds the write position;
otherwise subtracts the amount from the write position, the two scalar
indices, and every sync tracker entry, then shifts the VIS candidates and
keeps those with `index >= 0`. -/
def shiftBuffer (s : StreamingState) (amount : ℤ) : StreamingState :=
  if amount ≤ 0 ∨ amount > s.bufferWritePos then s
  else
    { bufferWritePos := s.bufferWritePos - amount
      lastSyncPulseIndex := s.lastSyncPulseIndex - amount
      leaderBreakIndex := s.leaderBreakIndex - amount
      sync5ms := s.sync5ms.adjustIndices amount
      sync9ms := s.sync9ms.adjustIndices amount
      sync20ms := s.sync20ms.adjustIndices amount
      visCandidates :=
        (s.visCandidates.map fun c => { c with index := c.index - amount }).filter
          fun c => 0 ≤ c.index }

/-- Concrete pre-shift state: one 5 ms sync entry at index 10, one VIS
candidate at index 20, 100 samples buffered. -/
def stateC3 : StreamingState :=
  { bufferWritePos := 100
    lastSyncPulseIndex := 30
    leaderBreakIndex := 20
    sync5ms := { syncPulses := [0, 0, 0, 0, 10], scanLines := [0, 0, 0, 0]
                 freqOffsets := [0, 0, 0, 0, 0] }
    sync9ms := { syncPulses := [0, 0, 0, 0, 0], scanLines := [0, 0, 0, 0]
                 freqOffsets := [0, 0, 0, 0, 0] }
    sync20ms := { syncPulses := [0, 0, 0, 0, 0], scanLines := [0, 0, 0, 0]
                  freqOffsets := [0, 0, 0, 0, 0] }
    visCandidates := [{ index := 20, freqOffset := 0 }] }

/-- Mode-override decision inside StreamingDecoder.checkVisCandidates
(src/unnamed/part_001 lines 469-526), taken once tryDecode has returned a
mode for a candidate: `true` means the candidate latches (setMode 'vis'),
`false` means the candidate is discarded. -/
def visOverrideDecision (currentMode : Option SSTVMode) (linesDecoded : ℕ)
    (newMode : SSTVMode) : Bool :=
  match currentMode with
  | none => true
  | some cur =>
    if 0 < linesDecoded then
      if (linesDecoded : ℚ) / cur.height > 1 / 10 then
        if |cur.syncPulse * 1000 - newMode.syncPulse * 1000| > 5 then false
        else true
      else true
    else true

/-- checkVisCandidates outcome for one candidate whose decode attempt
produced `decoded`: the early `if (this.currentMode && !this.allowVisInterrupt)
return` gate, then the override decision above. -/
def checkVisCandidateLatch (allowVisInterrupt : Bool) (currentMode : Option SSTVMode)
    (linesDecoded : ℕ) (decoded : Option SSTVMode) : Bool :=
  if currentMode.isSome && !allowVisInterrupt then false
  else
    match decoded with
    | none => false
    | some m => visOverrideDecision currentMode linesDecoded m

end SSTV

/-- Claim C1, as stated, is false on the registry: for Robot 36 the line
time at R = 48000 is 7200 samples while `syncPulse`, `syncPorch` and the
per-channel sums only account for 6912 samples (the 4.5 ms separator and
1.5 ms porch are not recorded in `separatorPulses`), a gap of 288 samples,
far beyond the allowed 1 sample. -/
theorem C1_counterexample :
    ¬ (∀ m ∈ SSTV.getAllModes,
        |m.lineTime * 48000 - SSTV.timingComponentSum m * 48000| ≤ 1) := by
  intro h
  have hmem : SSTV.Robot36 ∈ SSTV.getAllModes := by
    simp [SSTV.getAllModes, SSTV.MODE_REGISTRY]
  have h36 := h SSTV.Robot36 hmem
  rw [abs_le] at h36
  norm_num [SSTV.Robot36, SSTV.timingComponentSum] at h36

/-- Claim C1 amended: for every registry mode the component sum never
exceeds `lineTime` (scaled by R = 48000), and for every mode other than
Robot 36 (VIS 8) and Robot 72 (VIS 12) the two agree to within 1 sample;
the two Robot color modes exceed the sum by their separator/porch tones
(288 and 144 samples respectively) which `separatorPulses` leaves at 0. -/
theorem C1_lineTime_components : ∀ m ∈ SSTV.getAllModes,
    SSTV.timingComponentSum m * 48000 ≤ m.lineTime * 48000 ∧
    (m.id ≠ 8 → m.id ≠ 12 →
      |m.lineTime * 48000 - SSTV.timingComponentSum m * 48000| ≤ 1) := by
  intro m hm
  simp only [SSTV.getAllModes, SSTV.MODE_REGISTRY, List.map_cons, List.map_nil,
    List.mem_cons, List.not_mem_nil, or_false] at hm
  rcases hm with rfl | rfl | rfl | rfl | rfl | rfl | rfl | rfl | rfl | rfl | rfl | rfl |
    rfl | rfl | rfl | rfl <;>
    refine ⟨by norm_num [SSTV.timingComponentSum, SSTV.MartinM1, SSTV.MartinM2,
      SSTV.ScottieS1, SSTV.ScottieS2, SSTV.ScottieDX, SSTV.Robot36, SSTV.Robot72,
      SSTV.Robot8BW, SSTV.WraaseSC2180, SSTV.mkPDMode, SSTV.PD50, SSTV.PD90,
      SSTV.PD120, SSTV.PD160, SSTV.PD180, SSTV.PD240, SSTV.PD290], fun h8 h12 => ?_⟩ <;>
    first
    | (exact absurd rfl h8)
    | (exact absurd rfl h12)
    | (rw [abs_le]; constructor <;>
        norm_num [SSTV.timingComponentSum, SSTV.MartinM1, SSTV.MartinM2,
          SSTV.ScottieS1, SSTV.ScottieS2, SSTV.ScottieDX, SSTV.Robot36, SSTV.Robot72,
          SSTV.Robot8BW, SSTV.WraaseSC2180, SSTV.mkPDMode, SSTV.PD50, SSTV.PD90,
          SSTV.PD120, SSTV.PD160, SSTV.PD180, SSTV.PD240, SSTV.PD290])

/-- Witness for C1_lineTime_components at Martin M1. -/
theorem C1_lineTime_components_witness :
    SSTV.MartinM1 ∈ SSTV.getAllModes ∧
    SSTV.timingComponentSum SSTV.MartinM1 * 48000 ≤ SSTV.MartinM1.lineTime * 48000 ∧
    |SSTV.MartinM1.lineTime * 48000 - SSTV.timingComponentSum SSTV.MartinM1 * 48000| ≤ 1 :=
  have hmem : SSTV.MartinM1 ∈ SSTV.getAllModes := by
    simp [SSTV.getAllModes, SSTV.MODE_REGISTRY]
  ⟨hmem,
   (C1_lineTime_components SSTV.MartinM1 hmem).1,
   (C1_lineTime_components SSTV.MartinM1 hmem).2 (by norm_num [SSTV.MartinM1])
     (by norm_num [SSTV.MartinM1])⟩

/-- Claim C5: for every integer pixel value v in [0, 255],
`frequencyToPixel (pixelToFrequency v) = v`. -/
theorem C5_pixel_roundtrip : ∀ v : ℕ, v < 256 →
    SSTV.frequencyToPixel (SSTV.pixelToFrequency v) = v := by
  intro v hv
  have hexact : (SSTV.pixelToFrequency v - 1500) * (255 / 800) = (v : ℚ) := by
    unfold SSTV.pixelToFrequency
    ring
  have hround : SSTV.jsRound ((SSTV.pixelToFrequency v - 1500) * (255 / 800)) = v := by
    rw [hexact]
    unfold SSTV.jsRound
    rw [Int.floor_eq_iff]
    push_cast
    constructor <;> linarith
  unfold SSTV.frequencyToPixel
  rw [hround]
  omega

/-- Witness for C5_pixel_roundtrip at v = 37. -/
theorem C5_pixel_roundtrip_witness :
    37 < 256 ∧ SSTV.frequencyToPixel (SSTV.pixelToFrequency 37) = 37 :=
  ⟨by norm_num, C5_pixel_roundtrip 37 (by norm_num)⟩

/-- Claim C6: at R = 48000 and for pulses whose delayed frequency passes
the ±50 Hz check, the demodulator classifies a measured duration d
(samples) as 5 ms iff d ∈ [2.5 ms, 7 ms), 9 ms iff d ∈ [7 ms, 14.5 ms),
20 ms iff d ∈ [14.5 ms, 25 ms], and emits nothing outside [2.5 ms, 25 ms]
(the bounds scale to 120, 336, 696 and 1200 samples). -/
theorem C6_sync_width_classification (d : ℤ) (fd : ℚ)
    (hfd : |fd| ≤ SSTV.syncPulseFrequencyTolerance) :
    (SSTV.classifySyncPulse 48000 d fd = some SSTV.SyncPulseWidth.FiveMilliSeconds ↔
      (0.0025 * 48000 : ℚ) ≤ (d : ℚ) ∧ (d : ℚ) < 0.007 * 48000) ∧
    (SSTV.classifySyncPulse 48000 d fd = some SSTV.SyncPulseWidth.NineMilliSeconds ↔
      (0.007 * 48000 : ℚ) ≤ (d : ℚ) ∧ (d : ℚ) < 0.0145 * 48000) ∧
    (SSTV.classifySyncPulse 48000 d fd = some SSTV.SyncPulseWidth.TwentyMilliSeconds ↔
      (0.0145 * 48000 : ℚ) ≤ (d : ℚ) ∧ (d : ℚ) ≤ 0.025 * 48000) ∧
    (((d : ℚ) < 0.0025 * 48000 ∨ (0.025 * 48000 : ℚ) < (d : ℚ)) →
      SSTV.classifySyncPulse 48000 d fd = none) := by
  have hmin : SSTV.syncPulse5msMinSamples 48000 = 120 := by
    norm_num [SSTV.syncPulse5msMinSamples, SSTV.jsRound]
  have h5 : SSTV.syncPulse5msMaxSamples 48000 = 336 := by
    norm_num [SSTV.syncPulse5msMaxSamples, SSTV.jsRound]
  have h9 : SSTV.syncPulse9msMaxSamples 48000 = 696 := by
    norm_num [SSTV.syncPulse9msMaxSamples, SSTV.jsRound]
  have h20 : SSTV.syncPulse20msMaxSamples 48000 = 1200 := by
    norm_num [SSTV.syncPulse20msMaxSamples, SSTV.jsRound]
  have hfd' : ¬ |fd| > SSTV.syncPulseFrequencyTolerance := not_lt.mpr hfd
  have hb1 : ((0.0025 : ℚ) * 48000) = ((120 : ℤ) : ℚ) := by norm_num
  have hb2 : ((0.007 : ℚ) * 48000) = ((336 : ℤ) : ℚ) := by norm_num
  have hb3 : ((0.0145 : ℚ) * 48000) = ((696 : ℤ) : ℚ) := by norm_num
  have hb4 : ((0.025 : ℚ) * 48000) = ((1200 : ℤ) : ℚ) := by norm_num
  rw [hb1, hb2, hb3, hb4]
  simp only [Int.cast_le, Int.cast_lt]
  unfold SSTV.classifySyncPulse
  rw [hmin, h5, h9, h20]
  simp only [hfd', or_false]
  refine ⟨?_, ?_, ?_, fun hout => ?_⟩ <;>
    split_ifs with h1 h2 h3 <;> simp_all <;> omega

/-- Witness for C6_sync_width_classification: a 200-sample pulse
(≈ 4.2 ms) with zero frequency deviation classifies as 5 ms. -/
theorem C6_sync_width_classification_witness :
    |(0 : ℚ)| ≤ SSTV.syncPulseFrequencyTolerance ∧
    SSTV.classifySyncPulse 48000 200 0 = some SSTV.SyncPulseWidth.FiveMilliSeconds :=
  ⟨by norm_num [SSTV.syncPulseFrequencyTolerance],
   ((C6_sync_width_classification 200 0
      (by norm_num [SSTV.syncPulseFrequencyTolerance])).1).mpr (by norm_num)⟩

/-- Claim C9: quadraticPeakInterp always returns a value within
[peakIndex - 0.5, peakIndex + 0.5], and returns peakIndex unchanged at a
spectrum edge or when the interpolation denominator is below 1e-10 in
absolute value. -/
theorem C9_quadratic_interp_bounds (magnitudes : List ℚ) (k : ℤ) :
    ((k : ℚ) - 1/2 ≤ SSTV.quadraticPeakInterp magnitudes k ∧
      SSTV.quadraticPeakInterp magnitudes k ≤ (k : ℚ) + 1/2) ∧
    ((k ≤ 0 ∨ (magnitudes.length : ℤ) - 1 ≤ k ∨
        |SSTV.interpDenom magnitudes k| < 1 / 10 ^ 10) →
      SSTV.quadraticPeakInterp magnitudes k = (k : ℚ)) := by
  unfold SSTV.quadraticPeakInterp
  constructor
  · split_ifs with h1 h2
    · constructor <;> linarith
    · constructor <;> linarith
    · have hup :
          max (-(1/2 : ℚ))
            (min (1/2)
              (0.5 * (magnitudes.getD (k - 1).toNat 0 - magnitudes.getD (k + 1).toNat 0) /
                SSTV.interpDenom magnitudes k)) ≤ 1/2 :=
        max_le (by norm_num) (min_le_left _ _)
      have hlo :
          -(1/2 : ℚ) ≤
            max (-(1/2 : ℚ))
              (min (1/2)
                (0.5 * (magnitudes.getD (k - 1).toNat 0 - magnitudes.getD (k + 1).toNat 0) /
                  SSTV.interpDenom magnitudes k)) :=
        le_max_left _ _
      constructor <;> linarith
  · intro h
    split_ifs with h1 h2
    · rfl
    · rfl
    · exfalso
      rcases h with h | h | h
      · exact h1 (Or.inl h)
      · exact h1 (Or.inr h)
      · exact h2 h

/-- Claim C2, as stated, is false: for 2-channel YCrCb buffers
convertLineToRGB does not read the even/odd line pair through
interpolateChroma; it only uses the current line's chroma byte (passed as
U on even lines with V fixed at 128, and as V on odd lines).  At line 0,
pixel 0 of `bufC2` the code produces yuvToRgbInPlace 100 200 128 = (100,
75, 228) while the pair rule demands yuvToRgbInPlace 100 50 200 = (201,
126, 0). -/
theorem C2_counterexample :
    ¬ (∀ (buf : SSTV.ImageChannelBuffer) (m : SSTV.SSTVMode) (line x : ℕ),
        buf.mode = some m → m.colorFormat = SSTV.ColorFormat.YCrCb →
        m.channelCount = 2 → x < m.width →
        buf.convertLinePixel line x =
          some (SSTV.yuvToRgbInPlace
            (((buf.channels.getD 0 []).getD (line * m.width + x) 0 : ℕ) : ℚ)
            (SSTV.interpolateChromaAt (buf.channels.getD 1 []) m.width m.height line x).1
            (SSTV.interpolateChromaAt (buf.channels.getD 1 []) m.width m.height line x).2)) := by
  intro h
  have hc := h SSTV.bufC2 SSTV.Robot36 0 0 rfl rfl rfl (by norm_num [SSTV.Robot36])
  have hL : SSTV.bufC2.convertLinePixel 0 0 =
      some (SSTV.yuvToRgbInPlace (((100 : ℕ) : ℚ)) (((200 : ℕ) : ℚ)) 128) := rfl
  have hR :
      (SSTV.yuvToRgbInPlace
        (((SSTV.bufC2.channels.getD 0 []).getD (0 * SSTV.Robot36.width + 0) 0 : ℕ) : ℚ)
        (SSTV.interpolateChromaAt (SSTV.bufC2.channels.getD 1 [])
          SSTV.Robot36.width SSTV.Robot36.height 0 0).1
        (SSTV.interpolateChromaAt (SSTV.bufC2.channels.getD 1 [])
          SSTV.Robot36.width SSTV.Robot36.height 0 0).2) =
      SSTV.yuvToRgbInPlace (((100 : ℕ) : ℚ)) (((50 : ℕ) : ℚ)) (((200 : ℕ) : ℚ)) := rfl
  rw [hL, hR] at hc
  have hfst := congrArg (fun t => t.getD (0, 0, 0) |>.1) hc
  simp only [Option.getD_some] at hfst
  norm_num [SSTV.yuvToRgbInPlace, SSTV.clampByte, SSTV.jsRound] at hfst

/-- Claim C2 amended: for every 2-channel YCrCb buffer, convertLineToRGB
converts pixel x of line L with Y from the line's own luminance byte and
the line's own chroma byte passed as the U component on even lines (V
fixed at 128) and as the V component on odd lines (U fixed at 128); the
adjacent line of the pair is never consulted. -/
theorem C2_convertLine_uses_own_line_chroma (buf : SSTV.ImageChannelBuffer)
    (m : SSTV.SSTVMode) (line x : ℕ)
    (hm : buf.mode = some m) (hcf : m.colorFormat = SSTV.ColorFormat.YCrCb)
    (hcc : m.channelCount = 2) :
    buf.convertLinePixel line x =
      some (SSTV.yuvToRgbInPlace
        (((buf.channels.getD 0 []).getD (line * m.width + x) 0 : ℕ) : ℚ)
        (if line % 2 = 0 then
          (((buf.channels.getD 1 []).getD (line * m.width + x) 0 : ℕ) : ℚ)
        else 128)
        (if line % 2 = 0 then 128
        else (((buf.channels.getD 1 []).getD (line * m.width + x) 0 : ℕ) : ℚ))) := by
  unfold SSTV.ImageChannelBuffer.convertLinePixel
  rw [hm]
  simp only [hcf, hcc, if_true]

/-- Witness for C2_convertLine_uses_own_line_chroma at `bufC2`, line 0,
pixel 0. -/
theorem C2_convertLine_uses_own_line_chroma_witness :
    SSTV.bufC2.mode = some SSTV.Robot36 ∧
    SSTV.Robot36.colorFormat = SSTV.ColorFormat.YCrCb ∧
    SSTV.Robot36.channelCount = 2 ∧
    SSTV.bufC2.convertLinePixel 0 0 =
      some (SSTV.yuvToRgbInPlace
        (((SSTV.bufC2.channels.getD 0 []).getD (0 * SSTV.Robot36.width + 0) 0 : ℕ) : ℚ)
        (if 0 % 2 = 0 then
          (((SSTV.bufC2.channels.getD 1 []).getD (0 * SSTV.Robot36.width + 0) 0 : ℕ) : ℚ)
        else 128)
        (if 0 % 2 = 0 then 128
        else (((SSTV.bufC2.channels.getD 1 []).getD (0 * SSTV.Robot36.width + 0) 0 : ℕ) : ℚ))) :=
  ⟨rfl, rfl, rfl,
   C2_convertLine_uses_own_line_chroma SSTV.bufC2 SSTV.Robot36 0 0 rfl rfl rfl⟩

/-- Claim C10: setPixel and getPixel are total: with no mode allocated
getPixel returns 0 and setPixel leaves the buffer unchanged, and with the
line at or beyond the allocated capacity getPixel returns 0 and setPixel
writes nothing. -/
theorem C10_pixel_access_total (buf : SSTV.ImageChannelBuffer)
    (channel line pixel value : ℕ) :
    (buf.mode = none →
      buf.getPixel channel line pixel = 0 ∧
      buf.setPixel channel line pixel value = buf) ∧
    (buf.allocatedHeight ≤ line →
      buf.getPixel channel line pixel = 0 ∧
      buf.setPixel channel line pixel value = buf) := by
  constructor
  · intro h
    unfold SSTV.ImageChannelBuffer.getPixel SSTV.ImageChannelBuffer.setPixel
    rw [h]
    exact ⟨rfl, rfl⟩
  · intro h
    unfold SSTV.ImageChannelBuffer.getPixel SSTV.ImageChannelBuffer.setPixel
    cases buf.mode with
    | none => exact ⟨rfl, rfl⟩
    | some m =>
      constructor <;> (dsimp only; split <;> first | rfl | exact absurd h (by assumption))

/-- Witness for C10_pixel_access_total: an unallocated buffer reads 0 and
ignores writes. -/
theorem C10_pixel_access_total_witness :
    (SSTV.ImageChannelBuffer.mk none 0 []).mode = none ∧
    (SSTV.ImageChannelBuffer.mk none 0 []).getPixel 0 3 4 = 0 ∧
    (SSTV.ImageChannelBuffer.mk none 0 []).setPixel 0 3 4 7 =
      SSTV.ImageChannelBuffer.mk none 0 [] :=
  ⟨rfl,
   ((C10_pixel_access_total (SSTV.ImageChannelBuffer.mk none 0 []) 0 3 4 7).1 rfl).1,
   ((C10_pixel_access_total (SSTV.ImageChannelBuffer.mk none 0 []) 0 3 4 7).1 rfl).2⟩

/-- Claim C3, as stated, is false: after a shift the sync-history entries
are only decremented, never discarded, so entries that became negative are
retained (and a VIS candidate landing exactly on index 0 is also
retained).  At `stateC3` with shift 20 the 5 ms history keeps [-20, -20,
-20, -20, -10] instead of dropping the negatives. -/
theorem C3_counterexample :
    ¬ (∀ (s : SSTV.StreamingState) (d : ℤ), 0 < d → d ≤ s.bufferWritePos →
        ((SSTV.shiftBuffer s d).sync5ms.syncPulses =
          (s.sync5ms.syncPulses.map (· - d)).filter (fun i => 0 ≤ i)) ∧
        ((SSTV.shiftBuffer s d).visCandidates =
          (s.visCandidates.map fun c => { c with index := c.index - d }).filter
            (fun c => 0 ≤ c.index)) ∧
        (SSTV.shiftBuffer s d).lastSyncPulseIndex = s.lastSyncPulseIndex - d ∧
        (∀ i ∈ (SSTV.shiftBuffer s d).sync5ms.syncPulses, 0 < i) ∧
        (∀ c ∈ (SSTV.shiftBuffer s d).visCandidates, 0 < c.index)) := by
  intro h
  have hc := (h SSTV.stateC3 20 (by norm_num) (by norm_num [SSTV.stateC3])).1
  norm_num [SSTV.stateC3, SSTV.shiftBuffer, SSTV.SyncHistoryTracker.adjustIndices] at hc
  exact List.cons_ne_nil _ _ hc

/-- Claim C3 amended: an effective shift subtracts the amount from every
sync-history index of all three trackers (retaining entries even when the
result is negative or zero), from lastSyncPulseIndex and
leaderBreakIndex, and from every VIS-candidate index; only VIS candidates
are filtered, dropping exactly those whose shifted index is negative, so
every retained candidate index is >= 0 (0 included). -/
theorem C3_shift_adjusts_indices (s : SSTV.StreamingState) (amount : ℤ)
    (h0 : 0 < amount) (hle : amount ≤ s.bufferWritePos) :
    (SSTV.shiftBuffer s amount).sync5ms.syncPulses =
      s.sync5ms.syncPulses.map (· - amount) ∧
    (SSTV.shiftBuffer s amount).sync9ms.syncPulses =
      s.sync9ms.syncPulses.map (· - amount) ∧
    (SSTV.shiftBuffer s amount).sync20ms.syncPulses =
      s.sync20ms.syncPulses.map (· - amount) ∧
    (SSTV.shiftBuffer s amount).lastSyncPulseIndex = s.lastSyncPulseIndex - amount ∧
    (SSTV.shiftBuffer s amount).leaderBreakIndex = s.leaderBreakIndex - amount ∧
    (SSTV.shiftBuffer s amount).visCandidates =
      (s.visCandidates.map fun c => { c with index := c.index - amount }).filter
        (fun c => 0 ≤ c.index) ∧
    (∀ c ∈ (SSTV.shiftBuffer s amount).visCandidates, 0 ≤ c.index) := by
  have hcond : ¬ (amount ≤ 0 ∨ amount > s.bufferWritePos) := by
    push_neg
    exact ⟨h0, hle⟩
  unfold SSTV.shiftBuffer
  rw [if_neg hcond]
  refine ⟨rfl, rfl, rfl, rfl, rfl, rfl, fun c hc => ?_⟩
  have hp := List.of_mem_filter hc
  simpa using hp

/-- Witness for C3_shift_adjusts_indices at `stateC3` with shift 20. -/
theorem C3_shift_adjusts_indices_witness :
    (0 : ℤ) < 20 ∧ (20 : ℤ) ≤ SSTV.stateC3.bufferWritePos ∧
    ((SSTV.shiftBuffer SSTV.stateC3 20).sync5ms.syncPulses =
      SSTV.stateC3.sync5ms.syncPulses.map (· - 20) ∧
    (SSTV.shiftBuffer SSTV.stateC3 20).sync9ms.syncPulses =
      SSTV.stateC3.sync9ms.syncPulses.map (· - 20) ∧
    (SSTV.shiftBuffer SSTV.stateC3 20).sync20ms.syncPulses =
      SSTV.stateC3.sync20ms.syncPulses.map (· - 20) ∧
    (SSTV.shiftBuffer SSTV.stateC3 20).lastSyncPulseIndex =
      SSTV.stateC3.lastSyncPulseIndex - 20 ∧
    (SSTV.shiftBuffer SSTV.stateC3 20).leaderBreakIndex =
      SSTV.stateC3.leaderBreakIndex - 20 ∧
    (SSTV.shiftBuffer SSTV.stateC3 20).visCandidates =
      (SSTV.stateC3.visCandidates.map fun c => { c with index := c.index - 20 }).filter
        (fun c => 0 ≤ c.index) ∧
    (∀ c ∈ (SSTV.shiftBuffer SSTV.stateC3 20).visCandidates, 0 ≤ c.index)) :=
  ⟨by norm_num, by norm_num [SSTV.stateC3],
   C3_shift_adjusts_indices SSTV.stateC3 20 (by norm_num) (by norm_num [SSTV.stateC3])⟩

/-- Claim C4, as stated, is false at the exact 10% boundary: with
Robot 36 latched and 24 of 240 lines decoded (exactly 10%), a successful
VIS decode of PD 50 (20 ms sync vs 9 ms, an 11 ms mismatch) still latches
because the code only blocks when strictly more than 10% is decoded,
while the claim allows it only when strictly less than 10% is decoded. -/
theorem C4_counterexample :
    ¬ (∀ (cur newMode : SSTV.SSTVMode) (lines : ℕ), 0 < cur.height →
        (SSTV.checkVisCandidateLatch true (some cur) lines (some newMode) = true ↔
          ((lines : ℚ) / cur.height < 1 / 10 ∨
            |cur.syncPulse * 1000 - newMode.syncPulse * 1000| ≤ 5))) := by
  intro h
  have hlatch :
      SSTV.checkVisCandidateLatch true (some SSTV.Robot36) 24 (some SSTV.PD50) = true := by
    norm_num [SSTV.checkVisCandidateLatch, SSTV.visOverrideDecision, SSTV.Robot36]
  have hc := (h SSTV.Robot36 SSTV.PD50 24 (by norm_num [SSTV.Robot36])).mp hlatch
  rcases hc with hc | hc
  · norm_num [SSTV.Robot36] at hc
  · rw [abs_le] at hc
    norm_num [SSTV.Robot36, SSTV.PD50, SSTV.mkPDMode] at hc

/-- Claim C4 amended: when a mode is latched and VIS interrupts are
enabled, a successfully decoded VIS candidate latches its mode exactly
when at most 10% of the image has been decoded (boundary included) or the
new mode's sync-pulse width is within 5 ms of the current mode's;
otherwise the candidate is discarded. -/
theorem C4_vis_override_boundary (cur newMode : SSTV.SSTVMode) (lines : ℕ) :
    SSTV.checkVisCandidateLatch true (some cur) lines (some newMode) = true ↔
      ((lines : ℚ) / cur.height ≤ 1 / 10 ∨
        |cur.syncPulse * 1000 - newMode.syncPulse * 1000| ≤ 5) := by
  unfold SSTV.checkVisCandidateLatch SSTV.visOverrideDecision
  simp only [Option.isSome_some, Bool.not_true, Bool.and_false, Bool.false_eq_true,
    if_false]
  split_ifs with h1 h2 h3
  · simp only [Bool.false_eq_true, false_iff]
    push_neg
    exact ⟨h2, h3⟩
  · simp only [true_iff]
    exact Or.inr (not_lt.mp h3)
  · simp only [true_iff]
    exact Or.inl (not_lt.mp h2)
  · simp only [true_iff]
    refine Or.inl ?_
    have hz : lines = 0 := by omega
    subst hz
    norm_num

/-- findSome? of a guarded function returns the image of the first
element passing the guard. -/
theorem findSome?_filter_head {α β : Type} (l : List α) (p : α → Bool) (g : α → β) :
    (l.findSome? fun a => if p a then some (g a) else none) =
      ((l.filter p).head?).map g := by
  induction l with
  | nil => rfl
  | cons a t ih =>
    by_cases h : p a <;> simp [List.findSome?_cons, List.filter_cons, h, ih]

/-- Claim C7: when the even-parity check over the frame's data and parity
bits fails, tryDecode's tail returns a mode exactly when flipping one of
the 7 data bits (LSB first, first hit wins) yields a registered VIS code,
and returns that mode; otherwise it returns null. -/
theorem C7_vis_parity_correction (visBitFreqs : List ℚ)
    (hodd : SSTV.visParityOdd visBitFreqs = true) :
    SSTV.visDecodeTail visBitFreqs =
      (((List.range 7).filter fun i =>
          (SSTV.getModeByVIS (SSTV.visCodeOf visBitFreqs ^^^ (1 <<< i))).isSome).head?).bind
        (fun i => SSTV.getModeByVIS (SSTV.visCodeOf visBitFreqs ^^^ (1 <<< i))) := by
  unfold SSTV.visDecodeTail
  rw [hodd]
  unfold SSTV.tryParityCorrection
  rw [findSome?_filter_head]
  cases ((List.range 7).filter fun i =>
      (SSTV.getModeByVIS (SSTV.visCodeOf visBitFreqs ^^^ (1 <<< i))).isSome).head? <;>
    simp

/-- Witness for C7_vis_parity_correction: the frame below carries code 45
with a parity bit of 1 (parity fails); flipping data bit 0 yields VIS 44,
which resolves to Martin M1. -/
theorem C7_vis_parity_correction_witness :
    SSTV.visParityOdd [1200, 1100, 1300, 1100, 1100, 1300, 1100, 1300, 1100, 1200] = true ∧
    SSTV.visDecodeTail [1200, 1100, 1300, 1100, 1100, 1300, 1100, 1300, 1100, 1200] =
      some SSTV.MartinM1 :=
  have hodd :
      SSTV.visParityOdd [1200, 1100, 1300, 1100, 1100, 1300, 1100, 1300, 1100, 1200] =
        true := rfl
  ⟨hodd, by
    rw [C7_vis_parity_correction _ hodd]
    rfl⟩

/-- Claim C8: for every registry mode and sample rate, the encoder's VIS
section is the mode id's 7 data bits LSB-first as 30 ms tones (1100 Hz for
a 1 bit, 1300 Hz for a 0 bit), an even-parity bit at 1100 Hz exactly when
the data bits have odd bit-sum, then a 30 ms 1200 Hz stop bit. -/
theorem C8_encoder_vis_tones (R : ℚ) : ∀ m ∈ SSTV.getAllModes,
    SSTV.writeVISCode R m.id =
      ((List.range 7).map fun i =>
        { freq := if m.id.testBit i then 1100 else 1300
          samples := SSTV.durationToSamples R 0.03 : SSTV.ToneSeg }) ++
      [{ freq :=
           if ((List.range 7).countP fun i => m.id.testBit i) % 2 = 1 then 1100 else 1300
         samples := SSTV.durationToSamples R 0.03 },
       { freq := 1200, samples := SSTV.durationToSamples R 0.03 }] := by
  intro m hm
  simp only [SSTV.getAllModes, SSTV.MODE_REGISTRY, List.map_cons, List.map_nil,
    List.mem_cons, List.not_mem_nil, or_false] at hm
  rcases hm with rfl | rfl | rfl | rfl | rfl | rfl | rfl | rfl | rfl | rfl | rfl | rfl |
    rfl | rfl | rfl | rfl <;> rfl

/-- Witness for C8_encoder_vis_tones at Martin M1 and R = 48000. -/
theorem C8_encoder_vis_tones_witness :
    SSTV.MartinM1 ∈ SSTV.getAllModes ∧
    SSTV.writeVISCode 48000 SSTV.MartinM1.id =
      ((List.range 7).map fun i =>
        { freq := if SSTV.MartinM1.id.testBit i then 1100 else 1300
          samples := SSTV.durationToSamples 48000 0.03 : SSTV.ToneSeg }) ++
      [{ freq :=
           if ((List.range 7).countP fun i => SSTV.MartinM1.id.testBit i) % 2 = 1 then
             1100
           else 1300
         samples := SSTV.durationToSamples 48000 0.03 },
       { freq := 1200, samples := SSTV.durationToSamples 48000 0.03 }] :=
  have hmem : SSTV.MartinM1 ∈ SSTV.getAllModes := by
    simp [SSTV.getAllModes, SSTV.MODE_REGISTRY]
  ⟨hmem, C8_encoder_vis_tones 48000 SSTV.MartinM1 hmem⟩

/-- Witness for C9_quadratic_interp_bounds: the flat spectrum [5, 5, 5]
with peak bin 1 has zero denominator, so the estimate stays at bin 1. -/
theorem C9_quadratic_interp_bounds_witness :
    ((1 : ℤ) ≤ 0 ∨ (([5, 5, 5] : List ℚ).length : ℤ) - 1 ≤ 1 ∨
      |SSTV.interpDenom [5, 5, 5] 1| < 1 / 10 ^ 10) ∧
    SSTV.quadraticPeakInterp [5, 5, 5] 1 = ((1 : ℤ) : ℚ) :=
  have h : (1 : ℤ) ≤ 0 ∨ (([5, 5, 5] : List ℚ).length : ℤ) - 1 ≤ 1 ∨
      |SSTV.interpDenom [5, 5, 5] 1| < 1 / 10 ^ 10 :=
    Or.inr (Or.inr (by
      have e0 : Int.toNat 0 = 0 := rfl
      have e1 : Int.toNat 1 = 1 := rfl
      have e2 : Int.toNat 2 = 2 := rfl
      norm_num [SSTV.interpDenom, List.getD, e0, e1, e2]))
  ⟨h, (C9_quadratic_interp_bounds [5, 5, 5] 1).2 h⟩
